import Mathlib

/-!
Verification of the Slug'sEra pricing backend (src/main.py, src/schemas.py).

The pricing calculator (`calculate_order`, src/main.py lines 145-194) and the
order-persistence endpoint (`create_order`, src/main.py lines 198-215) are
embedded shallowly:

* Python floats are idealised as exact rationals (ℚ); `round(x, 2)` becomes
  `round2`, exact round-half-to-even to two decimal digits (Python 3 `round`
  is banker's rounding).
* The MongoDB product lookup (`get_documents("product", {"slug": {"$in": slugs}})`)
  is modelled by a collaborator function `lookup : String → Option Product`
  returning at most one product per slug, as the spec's collaborator contract
  assumes.
* Python `str.upper()` / `str.strip()` are modelled by `pyUpper` / `pyStrip`,
  ASCII uppercase and whitespace strip over the character list (these are
  structurally computable, which the builtin `String.toUpper` is not).
* `raise HTTPException` becomes the `Except HTTPError` monad: the calculator
  either fails with an error or returns a complete `CalcResponse`.
-/

/-- Python 3 `round` to an integer: round half to even (banker's rounding). -/
def roundHalfEven (q : ℚ) : ℤ :=
  let n := ⌊q⌋
  if q - n < 1/2 then n
  else if q - n > 1/2 then n + 1
  else if n % 2 = 0 then n else n + 1

/-- Python `round(x, 2)`: round half to even at the second decimal digit. -/
def round2 (x : ℚ) : ℚ := (roundHalfEven (x * 100) : ℚ) / 100

/-- ASCII uppercase of one character (Python `str.upper` restricted to ASCII,
which is all the code ever compares against). -/
def pyUpperChar (c : Char) : Char :=
  if 'a' ≤ c ∧ c ≤ 'z' then Char.ofNat (c.toNat - 32) else c

/-- Python `s.upper()` on ASCII strings. -/
def pyUpper (s : String) : String := ⟨s.data.map pyUpperChar⟩

/-- Whitespace characters stripped by Python `str.strip()` (ASCII part). -/
def isPySpace (c : Char) : Bool := c = ' ' ∨ c = '\t' ∨ c = '\n' ∨ c = '\r'

/-- Python `s.strip()`: drop leading and trailing whitespace. -/
def pyStrip (s : String) : String :=
  ⟨((s.data.dropWhile isPySpace).reverse.dropWhile isPySpace).reverse⟩

/-- The fields of a catalog product that the calculator reads
(schemas.py `Product`; the remaining fields — description, colors, images,
in_stock, rating, gsm, fabric, details, sizes — never reach the pricing
logic).  The pydantic schema constrains `price` with `ge=0`; theorems that
need it take that as a hypothesis on the lookup collaborator. -/
structure Product where
  title : String
  slug : String
  price : ℚ
deriving DecidableEq

/-- main.py `CalcItem` (lines 130-134).  `qty : int` carries no pydantic
bound, so it is modelled as ℤ. -/
structure CalcItem where
  product_slug : String
  qty : ℤ
  size : String
  color : String
deriving DecidableEq

/-- main.py `CalcRequest` (lines 137-142). -/
structure CalcRequest where
  items : List CalcItem
  discount_code : Option String := none
  country : String := "IN"
  state : Option String := none
  postal_code : Option String := none
deriving DecidableEq

/-- One emitted breakdown line (main.py lines 160-166). -/
structure LineOut where
  slug : String
  title : String
  price : ℚ
  qty : ℤ
  line_total : ℚ
deriving DecidableEq

/-- The JSON object returned by `/api/calc` (main.py lines 187-194). -/
structure CalcResponse where
  items : List LineOut
  subtotal : ℚ
  discount : ℚ
  shipping : ℚ
  tax : ℚ
  total : ℚ
deriving DecidableEq

/-- A FastAPI `HTTPException`. -/
structure HTTPError where
  status : ℕ
  detail : String
deriving DecidableEq

/-- `HTTPException(status_code=400, detail="Invalid product in cart")`
(main.py line 152). -/
def invalidCart : HTTPError := ⟨400, "Invalid product in cart"⟩

/-- The body of the pricing loop (main.py lines 156-166): resolve the line's
product, extend the breakdown, and accumulate the raw line total into the
running subtotal.  The `none` branch is unreachable after the resolution
guard (in Python an unresolvable slug would be a `KeyError` on `items_map`,
but the guard on line 151 fires first). -/
def line_step (lookup : String → Option Product)
    (acc : List LineOut × ℚ) (ci : CalcItem) : List LineOut × ℚ :=
  match lookup ci.product_slug with
  | some prod =>
    let line := prod.price * (ci.qty : ℚ)
    (acc.1 ++ [{ slug := ci.product_slug, title := prod.title,
                 price := prod.price, qty := ci.qty,
                 line_total := round2 line }],
     acc.2 + line)
  | none => acc

/-- The breakdown list and raw (unrounded) subtotal accumulated over the cart
in input order (main.py lines 154-166). -/
def price_lines (lookup : String → Option Product) (items : List CalcItem) :
    List LineOut × ℚ :=
  items.foldl (line_step lookup) ([], 0)

/-- The raw subtotal of a cart. -/
def cart_subtotal (lookup : String → Option Product) (items : List CalcItem) : ℚ :=
  (price_lines lookup items).2

/-- Discount-code resolution (main.py lines 168-174).  `if payload.discount_code:`
is Python truthiness: `None` and the empty string skip the block; otherwise
the code is stripped, uppercased and matched against the static table
(`SLUG10`/`WELCOME10` at 10%, `VIP20` at 20%); anything else leaves the
discount at 0. -/
def discount_amount (discount_code : Option String) (subtotal : ℚ) : ℚ :=
  match discount_code with
  | none => 0
  | some dc =>
    if dc = "" then 0
    else
      let code := pyUpper (pyStrip dc)
      if code = "SLUG10" ∨ code = "WELCOME10" then (0.10 : ℚ) * subtotal
      else if code = "VIP20" then (0.20 : ℚ) * subtotal
      else 0

/-- `payload.country.upper() in ("IN", "INDIA")` (main.py line 179). -/
def is_domestic (country : String) : Bool :=
  pyUpper country = "IN" || pyUpper country = "INDIA"

/-- The raw `discount` variable of a run of the calculator
(main.py lines 168-174). -/
def calc_discount (lookup : String → Option Product) (payload : CalcRequest) : ℚ :=
  discount_amount payload.discount_code (cart_subtotal lookup payload.items)

/-- `after_discount = max(subtotal - discount, 0.0)` (main.py line 176). -/
def calc_after_discount (lookup : String → Option Product) (payload : CalcRequest) : ℚ :=
  max (cart_subtotal lookup payload.items - calc_discount lookup payload) 0

/-- `shipping = 0.0 if after_discount >= 150 else (8.0 if is_domestic else 25.0)`
(main.py line 180). -/
def calc_shipping (lookup : String → Option Product) (payload : CalcRequest) : ℚ :=
  if calc_after_discount lookup payload ≥ 150 then 0
  else if is_domestic payload.country then 8.0 else 25.0

/-- `tax = (0.05 * after_discount) if is_domestic else 0.0` (main.py line 183). -/
def calc_tax (lookup : String → Option Product) (payload : CalcRequest) : ℚ :=
  if is_domestic payload.country then (0.05 : ℚ) * calc_after_discount lookup payload
  else 0

/-- The JSON object built on main.py lines 185-194 once the resolution guard
has passed: every monetary field is rounded to 2 decimals on output, and
`total = after_discount + shipping + tax` is rounded as a whole. -/
def calc_success (lookup : String → Option Product) (payload : CalcRequest) : CalcResponse :=
  { items := (price_lines lookup payload.items).1,
    subtotal := round2 (cart_subtotal lookup payload.items),
    discount := round2 (calc_discount lookup payload),
    shipping := round2 (calc_shipping lookup payload),
    tax := round2 (calc_tax lookup payload),
    total := round2 (calc_after_discount lookup payload + calc_shipping lookup payload
                      + calc_tax lookup payload) }

/-- `POST /api/calc` (main.py lines 145-194).  The guard mirrors line 151:
`items_map` holds one entry per distinct requested slug that resolved, so
`len(items_map) != len(set(slugs))` says some distinct slug failed to
resolve. -/
def calculate_order (lookup : String → Option Product) (payload : CalcRequest) :
    Except HTTPError CalcResponse :=
  let slugs := payload.items.map (fun i => i.product_slug)
  if (slugs.dedup.filter (fun s => (lookup s).isSome)).length ≠ slugs.dedup.length then
    .error invalidCart
  else
    .ok (calc_success lookup payload)

/-- schemas.py `Address`. -/
structure Address where
  full_name : String
  phone : String
  line1 : String
  line2 : Option String := none
  city : String
  state : String
  postal_code : String
  country : String
deriving DecidableEq

/-- schemas.py `CartItem` (the items of an `Order`; `qty` has `ge=1` there,
taken as a hypothesis where a theorem needs it). -/
structure CartItem where
  product_slug : String
  qty : ℤ := 1
  size : String
  color : String
deriving DecidableEq

/-- schemas.py `Order`: the client's submission to `POST /api/orders`,
including the client-supplied pricing fields the server must not trust. -/
structure Order where
  user_email : Option String := none
  guest : Bool := true
  items : List CartItem
  address : Address
  payment_method : String
  discount_code : Option String := none
  subtotal : ℚ
  discount : ℚ
  shipping : ℚ
  tax : ℚ
  total : ℚ
  status : String := "pending"
deriving DecidableEq

/-- The `CalcRequest` that `create_order` rebuilds from the submission
(main.py lines 201-206): items are re-wrapped, the discount code and the
address's country are forwarded, `state` is left at its default and
`postal_code` is forwarded. -/
def order_calc_request (payload : Order) : CalcRequest :=
  { items := payload.items.map (fun i =>
      { product_slug := i.product_slug, qty := i.qty, size := i.size, color := i.color }),
    discount_code := payload.discount_code,
    country := payload.address.country,
    state := none,
    postal_code := some payload.address.postal_code }

/-- The document persisted in the `order` collection (main.py lines 209-213):
`{**payload.model_dump(), **calc, "status": ...}`.  The later `**calc` spread
wins on every key it shares with the payload, so `items`, `subtotal`,
`discount`, `shipping`, `tax` and `total` come from the calculator — in
particular the persisted `items` are the calculator's breakdown lines, not
the submitted cart items — and the trailing `"status"` entry overrides the
payload's status. -/
structure OrderRecord where
  user_email : Option String
  guest : Bool
  items : List LineOut
  address : Address
  payment_method : String
  discount_code : Option String
  subtotal : ℚ
  discount : ℚ
  shipping : ℚ
  tax : ℚ
  total : ℚ
  status : String
deriving DecidableEq

/-- `POST /api/orders` (main.py lines 198-215): recompute the pricing
server-side, persist the merged record, and return the calculator summary.
The model returns the persisted record together with the summary; an
`HTTPException` raised by the inner calculator propagates. -/
def create_order (lookup : String → Option Product) (payload : Order) :
    Except HTTPError (OrderRecord × CalcResponse) :=
  match calculate_order lookup (order_calc_request payload) with
  | .error e => .error e
  | .ok res =>
    .ok ({ user_email := payload.user_email,
           guest := payload.guest,
           items := res.items,
           address := payload.address,
           payment_method := payload.payment_method,
           discount_code := payload.discount_code,
           subtotal := res.subtotal,
           discount := res.discount,
           shipping := res.shipping,
           tax := res.tax,
           total := res.total,
           status := if payload.payment_method = "COD" then "confirmed" else "pending" },
         res)

/-! ## Basic facts about the resolution guard and the pricing fold -/

/-- Every cart line's product resolves through the lookup collaborator. -/
def all_resolve (lookup : String → Option Product) (items : List CalcItem) : Prop :=
  ∀ ci ∈ items, (lookup ci.product_slug).isSome

instance (lookup : String → Option Product) (items : List CalcItem) :
    Decidable (all_resolve lookup items) := by
  unfold all_resolve; infer_instance

theorem length_filter_eq_iff {α : Type _} (p : α → Bool) (l : List α) :
    (l.filter p).length = l.length ↔ ∀ a ∈ l, p a := by
  constructor
  · intro h a ha
    have hs : l.filter p = l := (List.filter_sublist l).eq_of_length h
    exact List.filter_eq_self.mp hs a ha
  · intro h
    rw [List.filter_eq_self.mpr h]

theorem guard_iff_all_resolve (lookup : String → Option Product) (items : List CalcItem) :
    (((items.map (fun i => i.product_slug)).dedup.filter
        (fun s => (lookup s).isSome)).length
      = (items.map (fun i => i.product_slug)).dedup.length)
      ↔ all_resolve lookup items := by
  rw [length_filter_eq_iff]
  constructor
  · intro h ci hci
    exact h ci.product_slug (List.mem_dedup.mpr (List.mem_map_of_mem _ hci))
  · intro h s hs
    obtain ⟨ci, hci, rfl⟩ := List.mem_map.mp (List.mem_dedup.mp hs)
    exact h ci hci

theorem calculate_order_eq_ok {lookup : String → Option Product}
    {payload : CalcRequest} {out : CalcResponse} :
    calculate_order lookup payload = .ok out ↔
      all_resolve lookup payload.items ∧ out = calc_success lookup payload := by
  unfold calculate_order
  by_cases h : all_resolve lookup payload.items
  · rw [if_neg (not_ne_iff.mpr ((guard_iff_all_resolve lookup payload.items).mpr h))]
    simp [h, eq_comm]
  · rw [if_pos (fun hc => h ((guard_iff_all_resolve lookup payload.items).mp hc))]
    simp [h]

theorem calculate_order_eq_error {lookup : String → Option Product}
    {payload : CalcRequest} {e : HTTPError} :
    calculate_order lookup payload = .error e ↔
      ¬ all_resolve lookup payload.items ∧ e = invalidCart := by
  unfold calculate_order
  by_cases h : all_resolve lookup payload.items
  · rw [if_neg (not_ne_iff.mpr ((guard_iff_all_resolve lookup payload.items).mpr h))]
    simp [h]
  · rw [if_pos (fun hc => h ((guard_iff_all_resolve lookup payload.items).mp hc))]
    simp [h, eq_comm]

theorem foldl_line_step (lookup : String → Option Product) (items : List CalcItem) :
    ∀ acc : List LineOut × ℚ,
      items.foldl (line_step lookup) acc
        = (acc.1 ++ (price_lines lookup items).1, acc.2 + (price_lines lookup items).2) := by
  induction items with
  | nil => intro acc; simp [price_lines]
  | cons ci rest ih =>
    intro acc
    show rest.foldl (line_step lookup) (line_step lookup acc ci) = _
    rw [ih (line_step lookup acc ci)]
    have hconc : price_lines lookup (ci :: rest)
        = ((line_step lookup ([], 0) ci).1 ++ (price_lines lookup rest).1,
           (line_step lookup ([], 0) ci).2 + (price_lines lookup rest).2) := by
      show rest.foldl (line_step lookup) (line_step lookup ([], 0) ci) = _
      rw [ih (line_step lookup ([], 0) ci)]
    rw [hconc]
    cases hl : lookup ci.product_slug <;>
      simp [line_step, hl, List.append_assoc, add_assoc]

theorem price_lines_nil (lookup : String → Option Product) :
    price_lines lookup [] = ([], 0) := rfl

theorem price_lines_cons_some {lookup : String → Option Product}
    {ci : CalcItem} {p : Product} (rest : List CalcItem)
    (h : lookup ci.product_slug = some p) :
    price_lines lookup (ci :: rest)
      = ({ slug := ci.product_slug, title := p.title, price := p.price,
           qty := ci.qty, line_total := round2 (p.price * (ci.qty : ℚ)) }
           :: (price_lines lookup rest).1,
         p.price * (ci.qty : ℚ) + (price_lines lookup rest).2) := by
  show (ci :: rest).foldl (line_step lookup) ([], 0) = _
  rw [List.foldl_cons, foldl_line_step]
  simp [line_step, h]

theorem price_lines_cons_none {lookup : String → Option Product}
    {ci : CalcItem} (rest : List CalcItem)
    (h : lookup ci.product_slug = none) :
    price_lines lookup (ci :: rest) = price_lines lookup rest := by
  show (ci :: rest).foldl (line_step lookup) ([], 0) = _
  rw [List.foldl_cons]
  simp [line_step, h, price_lines]

/-! ## Small facts about `round2` -/

theorem roundHalfEven_def (q : ℚ) :
    roundHalfEven q =
      if q - (⌊q⌋ : ℚ) < 1/2 then ⌊q⌋
      else if q - (⌊q⌋ : ℚ) > 1/2 then ⌊q⌋ + 1
      else if ⌊q⌋ % 2 = 0 then ⌊q⌋ else ⌊q⌋ + 1 := rfl

theorem round2_zero : round2 0 = 0 := by norm_num [round2, roundHalfEven]

theorem round2_eight : round2 8 = 8 := by norm_num [round2, roundHalfEven]

theorem round2_twentyfive : round2 25 = 25 := by norm_num [round2, roundHalfEven]

theorem roundHalfEven_le_of_le {q r : ℚ} (h : q ≤ r) :
    roundHalfEven q ≤ roundHalfEven r := by
  rw [roundHalfEven_def, roundHalfEven_def]
  have hfloor : ⌊q⌋ ≤ ⌊r⌋ := Int.floor_le_floor h
  by_cases hqr : ⌊q⌋ = ⌊r⌋
  · rw [hqr]
    have hfrac : q - (⌊r⌋ : ℚ) ≤ r - (⌊r⌋ : ℚ) := by linarith
    split_ifs <;> first | omega | linarith
  · have hlt : ⌊q⌋ + 1 ≤ ⌊r⌋ := Int.lt_iff_add_one_le.mp (lt_of_le_of_ne hfloor hqr)
    split_ifs <;> omega

theorem round2_le_of_le {q r : ℚ} (h : q ≤ r) : round2 q ≤ round2 r := by
  unfold round2
  have h1 : roundHalfEven (q * 100) ≤ roundHalfEven (r * 100) :=
    roundHalfEven_le_of_le (by linarith)
  have hcast : (roundHalfEven (q * 100) : ℚ) ≤ (roundHalfEven (r * 100) : ℚ) := by
    exact_mod_cast h1
  linarith

/-! ## A compositional evaluator for concrete runs of the calculator -/

/-- Evaluate `calc_success` from evaluations of its pieces; each hypothesis is
discharged by computation at a concrete input. -/
theorem calc_success_eval (lookup : String → Option Product) (payload : CalcRequest)
    (st disc : ℚ) (dom : Bool) (lines : List LineOut) (sh tx tot : ℚ)
    (hst : cart_subtotal lookup payload.items = st)
    (hlines : (price_lines lookup payload.items).1 = lines)
    (hdisc : discount_amount payload.discount_code st = disc)
    (hdom : is_domestic payload.country = dom)
    (hsh : (if max (st - disc) 0 ≥ 150 then (0 : ℚ) else if dom then 8.0 else 25.0) = sh)
    (htx : (if dom then (0.05 : ℚ) * max (st - disc) 0 else 0) = tx)
    (htot : max (st - disc) 0 + sh + tx = tot) :
    calc_success lookup payload =
      { items := lines, subtotal := round2 st, discount := round2 disc,
        shipping := round2 sh, tax := round2 tx, total := round2 tot } := by
  subst hst hdisc hdom hsh htx htot hlines
  rfl

/-! ## Fixtures: a one-product catalog matching the seeded 109.0 hoodie -/

/-- The seeded red hoodie (main.py lines 79-88), restricted to the fields the
calculator reads. -/
def hoodieRed : Product :=
  { title := "Companion Hoodie Red", slug := "companion-hoodie-red", price := 109.0 }

/-- A catalog collaborator exposing just the red hoodie. -/
def demoLookup : String → Option Product := fun s =>
  if s = "companion-hoodie-red" then some hoodieRed else none

/-- One hoodie, quantity 1. -/
def hoodieItem1 : CalcItem :=
  { product_slug := "companion-hoodie-red", qty := 1, size := "M", color := "red" }

/-- Scenario request: one hoodie, no discount code, domestic. -/
def reqPlain : CalcRequest :=
  { items := [hoodieItem1], discount_code := none, country := "IN" }

/-- Scenario request: one hoodie, code `VIP20`, domestic. -/
def reqVip : CalcRequest :=
  { items := [hoodieItem1], discount_code := some "VIP20", country := "IN" }

/-- Scenario request: two hoodies, no discount code, domestic. -/
def reqQty2 : CalcRequest :=
  { items := [{ hoodieItem1 with qty := 2 }], discount_code := none, country := "IN" }

/-- The breakdown line the 109.0 hoodie produces at quantity `q` with raw line
total `t`. -/
def hoodieLine (q : ℤ) (t : ℚ) : LineOut :=
  { slug := "companion-hoodie-red", title := "Companion Hoodie Red",
    price := 109.0, qty := q, line_total := t }

/-- C8: on a domestic one-line cart with unit price 109.0, the calculator
returns shipping 8.0 / tax 5.45 / total 122.45 for qty 1 without a discount;
discount 21.8 / after_discount 87.2 / shipping 8.0 / tax 4.36 / total 99.56
with code "VIP20"; and subtotal 218.0 / shipping 0 / tax 10.90 / total 228.90
for qty 2 without a discount. -/
theorem claim_C8_scenarios :
    (calculate_order demoLookup reqPlain =
      .ok { items := [hoodieLine 1 109.0], subtotal := 109.0, discount := 0,
            shipping := 8.0, tax := 5.45, total := 122.45 })
    ∧ (calculate_order demoLookup reqVip =
      .ok { items := [hoodieLine 1 109.0], subtotal := 109.0, discount := 21.8,
            shipping := 8.0, tax := 4.36, total := 99.56 })
    ∧ calc_after_discount demoLookup reqVip = 87.2
    ∧ (calculate_order demoLookup reqQty2 =
      .ok { items := [hoodieLine 2 218.0], subtotal := 218.0, discount := 0,
            shipping := 0, tax := 10.90, total := 228.90 }) := by
  have hsubP : cart_subtotal demoLookup reqPlain.items = 109 := by
    norm_num [cart_subtotal, price_lines, line_step, demoLookup, hoodieRed, hoodieItem1, reqPlain]
  have hlinesP : (price_lines demoLookup reqPlain.items).1 = [hoodieLine 1 109.0] := by
    norm_num [price_lines, line_step, demoLookup, hoodieRed, hoodieItem1, reqPlain, hoodieLine,
      round2, roundHalfEven]
  have hsubV : cart_subtotal demoLookup reqVip.items = 109 := hsubP
  have hlinesV : (price_lines demoLookup reqVip.items).1 = [hoodieLine 1 109.0] := hlinesP
  have hcodeV : pyUpper (pyStrip "VIP20") = "VIP20" := by decide
  have hdiscV : discount_amount reqVip.discount_code 109 = 21.8 := by
    show discount_amount (some "VIP20") 109 = 21.8
    simp only [discount_amount, hcodeV]
    norm_num
    rw [if_neg (by decide), if_neg (by decide)]
  have hadV : calc_after_discount demoLookup reqVip = 87.2 := by
    rw [calc_after_discount, calc_discount, hsubV, hdiscV]
    norm_num [max_def]
  refine ⟨?_, ?_, hadV, ?_⟩
  · rw [calculate_order_eq_ok]
    refine ⟨by decide, ?_⟩
    rw [calc_success_eval demoLookup reqPlain 109 0 true [hoodieLine 1 109.0] 8 5.45 122.45
      hsubP hlinesP (by simp [reqPlain, discount_amount]) (by decide)
      (by norm_num [max_def]) (by norm_num [max_def]) (by norm_num [max_def])]
    refine CalcResponse.mk.injEq _ _ _ _ _ _ _ _ _ _ _ _ ▸ ?_
    norm_num [round2, roundHalfEven]
  · rw [calculate_order_eq_ok]
    refine ⟨by decide, ?_⟩
    rw [calc_success_eval demoLookup reqVip 109 21.8 true [hoodieLine 1 109.0] 8 4.36 99.56
      hsubV hlinesV hdiscV (by decide)
      (by norm_num [max_def]) (by norm_num [max_def]) (by norm_num [max_def])]
    norm_num [round2, roundHalfEven]
  · rw [calculate_order_eq_ok]
    refine ⟨by decide, ?_⟩
    have hsub2 : cart_subtotal demoLookup reqQty2.items = 218 := by
      norm_num [cart_subtotal, price_lines, line_step, demoLookup, hoodieRed, hoodieItem1, reqQty2]
    have hlines2 : (price_lines demoLookup reqQty2.items).1 = [hoodieLine 2 218.0] := by
      norm_num [price_lines, line_step, demoLookup, hoodieRed, hoodieItem1, reqQty2, hoodieLine,
        round2, roundHalfEven]
    rw [calc_success_eval demoLookup reqQty2 218 0 true [hoodieLine 2 218.0] 0 10.9 228.9
      hsub2 hlines2 (by simp [reqQty2, discount_amount]) (by decide)
      (by norm_num [max_def]) (by norm_num [max_def]) (by norm_num [max_def])]
    norm_num [round2, roundHalfEven]

/-! ## Discount and subtotal bounds -/

/-- Every discount code applies zero discount to an empty (zero) subtotal. -/
theorem discount_amount_zero (dc : Option String) : discount_amount dc 0 = 0 := by
  cases dc with
  | none => rfl
  | some s =>
    simp only [discount_amount]
    split_ifs <;> norm_num

/-- With a non-negative subtotal the discount never exceeds the subtotal
(the table rates are 0, 10% and 20%). -/
theorem discount_amount_le {dc : Option String} {st : ℚ} (h : 0 ≤ st) :
    discount_amount dc st ≤ st := by
  cases dc with
  | none => exact h
  | some s =>
    simp only [discount_amount]
    split_ifs <;> linarith

/-- With a non-negative subtotal the discount is non-negative. -/
theorem discount_amount_nonneg {dc : Option String} {st : ℚ} (h : 0 ≤ st) :
    0 ≤ discount_amount dc st := by
  cases dc with
  | none => exact le_refl 0
  | some s =>
    simp only [discount_amount]
    split_ifs <;> linarith

/-- The raw subtotal is non-negative whenever all quantities are non-negative
and the catalog prices are non-negative (the pydantic `Product.price` field is
declared `ge=0`). -/
theorem cart_subtotal_nonneg {lookup : String → Option Product} {items : List CalcItem}
    (hq : ∀ ci ∈ items, 0 ≤ ci.qty)
    (hp : ∀ s p, lookup s = some p → 0 ≤ p.price) :
    0 ≤ cart_subtotal lookup items := by
  induction items with
  | nil => simp [cart_subtotal, price_lines_nil]
  | cons ci rest ih =>
    have hrest : 0 ≤ cart_subtotal lookup rest :=
      ih (fun x hx => hq x (List.mem_cons_of_mem _ hx))
    cases hl : lookup ci.product_slug with
    | none => rw [cart_subtotal, price_lines_cons_none rest hl]; exact hrest
    | some p =>
      rw [cart_subtotal, price_lines_cons_some rest hl]
      have h1 : (0 : ℚ) ≤ p.price := hp _ _ hl
      have h2 : (0 : ℚ) ≤ (ci.qty : ℚ) := by
        exact_mod_cast hq ci (List.mem_cons_self _ _)
      exact add_nonneg (mul_nonneg h1 h2) hrest

/-! ## C10: an empty cart quotes successfully -/

/-- C10: a quote for an empty items list does not fail: subtotal, discount and
tax are 0, shipping is the flat fee for the destination (8.0 domestic, 25.0
international, as `after_discount = 0 < 150`), and the total is that fee. -/
theorem claim_C10_empty_cart (lookup : String → Option Product)
    (dc : Option String) (country : String) :
    calculate_order lookup { items := [], discount_code := dc, country := country } =
      .ok { items := [], subtotal := 0, discount := 0,
            shipping := if is_domestic country then 8.0 else 25.0,
            tax := 0,
            total := if is_domestic country then 8.0 else 25.0 } := by
  rw [calculate_order_eq_ok]
  refine ⟨fun ci hci => absurd hci (List.not_mem_nil ci), ?_⟩
  rw [calc_success_eval lookup { items := [], discount_code := dc, country := country }
      0 0 (is_domestic country) []
      (if is_domestic country then 8.0 else 25.0) 0
      (if is_domestic country then 8.0 else 25.0)
      rfl rfl (discount_amount_zero dc) rfl
      (by norm_num [max_def])
      (by cases hd : is_domestic country <;> norm_num [max_def])
      (by norm_num [max_def])]
  cases hd : is_domestic country <;> simp [hd] <;> norm_num [round2, roundHalfEven]

/-! ## C6: an unresolvable product identifier fails the whole request -/

/-- C6: if any cart line's identifier does not resolve, the calculator fails
with HTTP 400 "Invalid product in cart" and returns no breakdown at all. -/
theorem claim_C6_invalid_cart (lookup : String → Option Product) (payload : CalcRequest)
    (h : ∃ ci ∈ payload.items, lookup ci.product_slug = none) :
    calculate_order lookup payload = .error invalidCart := by
  rw [calculate_order_eq_error]
  refine ⟨?_, rfl⟩
  intro hall
  obtain ⟨ci, hci, hnone⟩ := h
  have hs := hall ci hci
  rw [hnone] at hs
  exact Bool.noConfusion hs

/-- A request for a slug the catalog does not know. -/
def reqUnknown : CalcRequest :=
  { items := [{ product_slug := "nope", qty := 1, size := "M", color := "red" }],
    discount_code := none, country := "IN" }

theorem claim_C6_witness :
    calculate_order demoLookup reqUnknown = .error invalidCart :=
  claim_C6_invalid_cart demoLookup reqUnknown
    ⟨{ product_slug := "nope", qty := 1, size := "M", color := "red" },
      by simp [reqUnknown], by decide⟩

/-! ## C4: discount-code resolution -/

/-- C4: discount resolution is case-insensitive after trimming: a code whose
stripped uppercase form is `SLUG10` or `WELCOME10` yields the 10% discount,
`VIP20` yields the 20% discount, and any other code yields discount 0; and the
choice of code can never turn a priceable cart into an error. -/
theorem claim_C4_discount_codes (lookup : String → Option Product)
    (payload : CalcRequest) (out : CalcResponse) (dc : String)
    (hdc : payload.discount_code = some dc)
    (h : calculate_order lookup payload = .ok out) :
    (((pyUpper (pyStrip dc) = "SLUG10" ∨ pyUpper (pyStrip dc) = "WELCOME10") →
        out.discount = round2 ((0.10 : ℚ) * cart_subtotal lookup payload.items))
      ∧ (pyUpper (pyStrip dc) = "VIP20" →
          out.discount = round2 ((0.20 : ℚ) * cart_subtotal lookup payload.items))
      ∧ (pyUpper (pyStrip dc) ≠ "SLUG10" → pyUpper (pyStrip dc) ≠ "WELCOME10" →
          pyUpper (pyStrip dc) ≠ "VIP20" → out.discount = 0))
    ∧ ∀ dc2 : Option String, ∃ out2,
        calculate_order lookup { payload with discount_code := dc2 } = .ok out2 := by
  obtain ⟨hres, rfl⟩ := calculate_order_eq_ok.mp h
  constructor
  · have hdisc : calc_discount lookup payload
        = discount_amount (some dc) (cart_subtotal lookup payload.items) := by
      rw [calc_discount, hdc]
    by_cases hempty : dc = ""
    · subst hempty
      refine ⟨fun hk => ?_, fun hk => ?_, fun _ _ _ => ?_⟩
      · exact absurd hk (by decide)
      · exact absurd hk (by decide)
      · show round2 (calc_discount lookup payload) = 0
        rw [hdisc]
        simp only [discount_amount, if_pos rfl]
        exact round2_zero
    · refine ⟨fun hk => ?_, fun hk => ?_, fun h1 h2 h3 => ?_⟩
      · show round2 (calc_discount lookup payload) = _
        rw [hdisc]
        simp only [discount_amount, if_neg hempty, if_pos hk]
      · show round2 (calc_discount lookup payload) = _
        rw [hdisc]
        have hk2 : ¬ (pyUpper (pyStrip dc) = "SLUG10" ∨ pyUpper (pyStrip dc) = "WELCOME10") := by
          rw [hk]; decide
        simp only [discount_amount, if_neg hempty, if_neg hk2, if_pos hk]
      · show round2 (calc_discount lookup payload) = 0
        rw [hdisc]
        have hk2 : ¬ (pyUpper (pyStrip dc) = "SLUG10" ∨ pyUpper (pyStrip dc) = "WELCOME10") := by
          rintro (hx | hx) <;> [exact h1 hx; exact h2 hx]
        simp only [discount_amount, if_neg hempty, if_neg hk2, if_neg h3]
        exact round2_zero
  · intro dc2
    refine ⟨calc_success lookup { payload with discount_code := dc2 }, ?_⟩
    rw [calculate_order_eq_ok]
    exact ⟨hres, rfl⟩

/-- Scenario request: one hoodie, code `" sLuG10 "` (untrimmed, mixed case),
domestic. -/
def reqSlugMixed : CalcRequest :=
  { items := [hoodieItem1], discount_code := some " sLuG10 ", country := "IN" }

theorem claim_C4_witness :
    pyUpper (pyStrip " sLuG10 ") = "SLUG10"
    ∧ calculate_order demoLookup reqSlugMixed = .ok (calc_success demoLookup reqSlugMixed)
    ∧ (calc_success demoLookup reqSlugMixed).discount = 10.9 := by
  have h : calculate_order demoLookup reqSlugMixed
      = .ok (calc_success demoLookup reqSlugMixed) := by
    rw [calculate_order_eq_ok]
    exact ⟨by decide, rfl⟩
  have hsub : cart_subtotal demoLookup reqSlugMixed.items = 109 := by
    norm_num [cart_subtotal, price_lines, line_step, demoLookup, hoodieRed, hoodieItem1,
      reqSlugMixed]
  refine ⟨by decide, h, ?_⟩
  have hmain := (claim_C4_discount_codes demoLookup reqSlugMixed
    (calc_success demoLookup reqSlugMixed) " sLuG10 " rfl h).1.1 (Or.inl (by decide))
  rw [hmain, hsub]
  norm_num [round2, roundHalfEven]

/-! ## C5: tax policy -/

/-- C5: the tax field is 5% of `after_discount` (rounded for output) for a
domestic destination and exactly 0 for an international one, whatever the
amount. -/
theorem claim_C5_tax (lookup : String → Option Product)
    (payload : CalcRequest) (out : CalcResponse)
    (h : calculate_order lookup payload = .ok out) :
    (is_domestic payload.country = true →
       out.tax = round2 ((0.05 : ℚ) * calc_after_discount lookup payload))
    ∧ (is_domestic payload.country = false → out.tax = 0) := by
  obtain ⟨hres, rfl⟩ := calculate_order_eq_ok.mp h
  constructor <;> intro hdom
  · show round2 (calc_tax lookup payload) = _
    rw [calc_tax, if_pos hdom]
  · show round2 (calc_tax lookup payload) = 0
    rw [calc_tax, if_neg (by simp [hdom])]
    exact round2_zero

/-- Scenario request: one hoodie shipped to the United States. -/
def reqIntl : CalcRequest :=
  { items := [hoodieItem1], discount_code := none, country := "US" }

theorem claim_C5_witness :
    is_domestic "US" = false
    ∧ calculate_order demoLookup reqIntl = .ok (calc_success demoLookup reqIntl)
    ∧ (calc_success demoLookup reqIntl).tax = 0 := by
  have h : calculate_order demoLookup reqIntl = .ok (calc_success demoLookup reqIntl) := by
    rw [calculate_order_eq_ok]
    exact ⟨by decide, rfl⟩
  refine ⟨by decide, h, ?_⟩
  exact (claim_C5_tax demoLookup reqIntl (calc_success demoLookup reqIntl) h).2 (by decide)

/-! ## C3: shipping policy -/

/-- C3: shipping is free from `after_discount ≥ 150`; below the threshold it
is the 8.0 domestic or 25.0 international flat fee, where "domestic" means the
uppercased country equals "IN" or "INDIA". -/
theorem claim_C3_shipping (lookup : String → Option Product)
    (payload : CalcRequest) (out : CalcResponse)
    (h : calculate_order lookup payload = .ok out) :
    (150 ≤ calc_after_discount lookup payload → out.shipping = 0)
    ∧ (calc_after_discount lookup payload < 150 →
        (is_domestic payload.country = true → out.shipping = 8.0)
        ∧ (is_domestic payload.country = false → out.shipping = 25.0))
    ∧ (is_domestic payload.country = true ↔
        (pyUpper payload.country = "IN" ∨ pyUpper payload.country = "INDIA")) := by
  obtain ⟨hres, rfl⟩ := calculate_order_eq_ok.mp h
  refine ⟨fun hge => ?_, fun hlt => ⟨fun hdom => ?_, fun hdom => ?_⟩, ?_⟩
  · show round2 (calc_shipping lookup payload) = 0
    rw [calc_shipping, if_pos hge]
    exact round2_zero
  · show round2 (calc_shipping lookup payload) = 8.0
    rw [calc_shipping, if_neg (not_le.mpr hlt), if_pos hdom]
    norm_num [round2, roundHalfEven]
  · show round2 (calc_shipping lookup payload) = 25.0
    rw [calc_shipping, if_neg (not_le.mpr hlt), if_neg (by simp [hdom])]
    norm_num [round2, roundHalfEven]
  · simp [is_domestic]

/-- A catalog for exercising the free-shipping threshold: one product at
149.99 and one at 150.00. -/
def thresholdLookup : String → Option Product := fun s =>
  if s = "p14999" then some { title := "P14999", slug := "p14999", price := 149.99 }
  else if s = "p150" then some { title := "P150", slug := "p150", price := 150 }
  else none

/-- Domestic request totalling 149.99 before shipping. -/
def reqBelow : CalcRequest :=
  { items := [{ product_slug := "p14999", qty := 1, size := "M", color := "red" }],
    discount_code := none, country := "IN" }

/-- Domestic request totalling exactly 150. -/
def reqAt150 : CalcRequest :=
  { items := [{ product_slug := "p150", qty := 1, size := "M", color := "red" }],
    discount_code := none, country := "IN" }

theorem claim_C3_witness :
    calculate_order thresholdLookup reqBelow = .ok (calc_success thresholdLookup reqBelow)
    ∧ (calc_success thresholdLookup reqBelow).shipping = 8.0
    ∧ calculate_order thresholdLookup reqAt150 = .ok (calc_success thresholdLookup reqAt150)
    ∧ (calc_success thresholdLookup reqAt150).shipping = 0 := by
  have hb : calculate_order thresholdLookup reqBelow
      = .ok (calc_success thresholdLookup reqBelow) := by
    rw [calculate_order_eq_ok]; exact ⟨by decide, rfl⟩
  have ha : calculate_order thresholdLookup reqAt150
      = .ok (calc_success thresholdLookup reqAt150) := by
    rw [calculate_order_eq_ok]; exact ⟨by decide, rfl⟩
  have hlB : thresholdLookup "p14999" = some { title := "P14999", slug := "p14999", price := 149.99 } := by
    rw [thresholdLookup, if_pos rfl]
  have hlA : thresholdLookup "p150" = some { title := "P150", slug := "p150", price := 150 } := by
    rw [thresholdLookup, if_neg (by decide), if_pos rfl]
  have hsubB : cart_subtotal thresholdLookup reqBelow.items = 149.99 := by
    norm_num [cart_subtotal, price_lines, line_step, reqBelow, hlB]
  have hsubA : cart_subtotal thresholdLookup reqAt150.items = 150 := by
    norm_num [cart_subtotal, price_lines, line_step, reqAt150, hlA]
  have hadB : calc_after_discount thresholdLookup reqBelow = 149.99 := by
    rw [calc_after_discount, calc_discount, hsubB]
    norm_num [reqBelow, discount_amount, max_def]
  have hadA : calc_after_discount thresholdLookup reqAt150 = 150 := by
    rw [calc_after_discount, calc_discount, hsubA]
    norm_num [reqAt150, discount_amount, max_def]
  refine ⟨hb, ?_, ha, ?_⟩
  · exact ((claim_C3_shipping thresholdLookup reqBelow _ hb).2.1
      (by rw [hadB]; norm_num)).1 (by decide)
  · exact (claim_C3_shipping thresholdLookup reqAt150 _ ha).1 (by rw [hadA])

/-! ## C2: the total/discount invariant -/

/-- A catalog for exercising rounding drift and negative quantities. -/
def cexLookup : String → Option Product := fun s =>
  if s = "cheap" then some { title := "Cheap", slug := "cheap", price := 0.654 }
  else if s = "tenner" then some { title := "Tenner", slug := "tenner", price := 10 }
  else none

/-- One 0.654 item, domestic, no code: the reported tax and subtotal round
down while the reported total rounds up. -/
def reqCheap : CalcRequest :=
  { items := [{ product_slug := "cheap", qty := 1, size := "M", color := "red" }],
    discount_code := none, country := "IN" }

/-- Quantity -1 (the `CalcItem.qty` field is an unconstrained `int`), with a
10% code: the discount (-1) exceeds the subtotal (-10). -/
def reqNegQty : CalcRequest :=
  { items := [{ product_slug := "tenner", qty := -1, size := "M", color := "red" }],
    discount_code := some "SLUG10", country := "IN" }

/-- C2 counterexample: the output of the calculator on the 0.654 cart has
total 8.69 but `round(subtotal - discount, 2) + shipping + tax` = 8.68 (the
code rounds each display field independently of the total), and on the
quantity -1 cart the reported discount -1 exceeds the reported subtotal
-10. -/
theorem claim_C2_counterexample :
    (calculate_order cexLookup reqCheap =
      .ok { items := [{ slug := "cheap", title := "Cheap", price := 0.654, qty := 1,
                        line_total := 0.65 }],
            subtotal := 0.65, discount := 0, shipping := 8, tax := 0.03, total := 8.69 })
    ∧ (8.69 : ℚ) ≠ round2 ((0.65 : ℚ) - 0) + 8 + 0.03
    ∧ (calculate_order cexLookup reqNegQty =
      .ok { items := [{ slug := "tenner", title := "Tenner", price := 10, qty := -1,
                        line_total := -10 }],
            subtotal := -10, discount := -1, shipping := 8, tax := 0, total := 8 })
    ∧ ¬ ((-1 : ℚ) ≤ (-10 : ℚ)) := by
  have hlC : cexLookup "cheap" = some { title := "Cheap", slug := "cheap", price := 0.654 } := by
    rw [cexLookup, if_pos rfl]
  have hlT : cexLookup "tenner" = some { title := "Tenner", slug := "tenner", price := 10 } := by
    rw [cexLookup, if_neg (by decide), if_pos rfl]
  refine ⟨?_, by norm_num [round2, roundHalfEven], ?_, by norm_num⟩
  · rw [calculate_order_eq_ok]
    refine ⟨by decide, ?_⟩
    rw [calc_success_eval cexLookup reqCheap 0.654 0 true
        [{ slug := "cheap", title := "Cheap", price := 0.654, qty := 1, line_total := 0.65 }]
        8 0.0327 8.6867
        (by norm_num [cart_subtotal, price_lines, line_step, reqCheap, hlC])
        (by norm_num [price_lines, line_step, reqCheap, hlC, round2, roundHalfEven])
        rfl (by decide)
        (by norm_num [max_def]) (by norm_num [max_def]) (by norm_num [max_def])]
    norm_num [round2, roundHalfEven]
  · rw [calculate_order_eq_ok]
    refine ⟨by decide, ?_⟩
    have hcodeS : pyUpper (pyStrip "SLUG10") = "SLUG10" := by decide
    have hdiscS : discount_amount (some "SLUG10") (-10) = -1 := by
      simp only [discount_amount, hcodeS]
      rw [if_pos (Or.inl trivial)]
      norm_num
      decide
    rw [calc_success_eval cexLookup reqNegQty (-10) (-1) true
        [{ slug := "tenner", title := "Tenner", price := 10, qty := -1, line_total := -10 }]
        8 0 8
        (by norm_num [cart_subtotal, price_lines, line_step, reqNegQty, hlT])
        (by norm_num [price_lines, line_step, reqNegQty, hlT, round2, roundHalfEven])
        hdiscS (by decide)
        (by norm_num [max_def]) (by norm_num [max_def]) (by norm_num [max_def])]
    norm_num [round2, roundHalfEven]

/-- C2 amended: for carts with non-negative quantities (and catalog prices
non-negative, as the schema requires), the raw discount never exceeds the raw
subtotal — hence the reported discount never exceeds the reported subtotal —
and the reported total is the single rounding of the exact sum
`(subtotal - discount) + shipping + tax` of the unrounded components (the
per-field equation of the original claim fails by a cent, see the
counterexample). -/
theorem claim_C2_amended (lookup : String → Option Product)
    (payload : CalcRequest) (out : CalcResponse)
    (hq : ∀ ci ∈ payload.items, 0 ≤ ci.qty)
    (hp : ∀ s p, lookup s = some p → 0 ≤ p.price)
    (h : calculate_order lookup payload = .ok out) :
    calc_discount lookup payload ≤ cart_subtotal lookup payload.items
    ∧ out.discount ≤ out.subtotal
    ∧ out.total = round2 ((cart_subtotal lookup payload.items - calc_discount lookup payload)
        + calc_shipping lookup payload + calc_tax lookup payload) := by
  have hst : 0 ≤ cart_subtotal lookup payload.items := cart_subtotal_nonneg hq hp
  have hd : calc_discount lookup payload ≤ cart_subtotal lookup payload.items := by
    rw [calc_discount]
    exact discount_amount_le hst
  obtain ⟨hres, rfl⟩ := calculate_order_eq_ok.mp h
  refine ⟨hd, round2_le_of_le hd, ?_⟩
  show round2 (calc_after_discount lookup payload + calc_shipping lookup payload
        + calc_tax lookup payload) = _
  have had : calc_after_discount lookup payload
      = cart_subtotal lookup payload.items - calc_discount lookup payload := by
    rw [calc_after_discount]
    exact max_eq_left (by linarith)
  rw [had]

/-- Every price in the demo catalog is non-negative. -/
theorem demoLookup_price_nonneg : ∀ s p, demoLookup s = some p → 0 ≤ p.price := by
  intro s p hsp
  rw [demoLookup] at hsp
  by_cases hs : s = "companion-hoodie-red"
  · rw [if_pos hs] at hsp
    cases hsp
    norm_num [hoodieRed]
  · rw [if_neg hs] at hsp
    exact absurd hsp (Option.noConfusion)

theorem claim_C2_witness :
    calculate_order demoLookup reqPlain = .ok (calc_success demoLookup reqPlain)
    ∧ (calc_success demoLookup reqPlain).discount ≤ (calc_success demoLookup reqPlain).subtotal
    ∧ (calc_success demoLookup reqPlain).total
        = round2 ((cart_subtotal demoLookup reqPlain.items - calc_discount demoLookup reqPlain)
            + calc_shipping demoLookup reqPlain + calc_tax demoLookup reqPlain) := by
  have h : calculate_order demoLookup reqPlain = .ok (calc_success demoLookup reqPlain) := by
    rw [calculate_order_eq_ok]
    exact ⟨by decide, rfl⟩
  have main := claim_C2_amended demoLookup reqPlain (calc_success demoLookup reqPlain)
    (by intro ci hci; rw [reqPlain] at hci; simp at hci; rw [hci]; decide)
    demoLookup_price_nonneg h
  exact ⟨h, main.2.1, main.2.2⟩

/-! ## C7: the breakdown mirrors the cart -/

/-- The relation between a cart line and the breakdown line emitted for it. -/
def line_matches (lookup : String → Option Product) (ci : CalcItem) (l : LineOut) : Prop :=
  ∃ p, lookup ci.product_slug = some p ∧
    l = { slug := ci.product_slug, title := p.title, price := p.price, qty := ci.qty,
          line_total := round2 (p.price * (ci.qty : ℚ)) }

/-- When every identifier resolves, the breakdown has exactly one line per
cart line, in input order. -/
theorem price_lines_forall2 {lookup : String → Option Product} {items : List CalcItem}
    (h : all_resolve lookup items) :
    List.Forall₂ (line_matches lookup) items (price_lines lookup items).1 := by
  induction items with
  | nil => exact List.Forall₂.nil
  | cons ci rest ih =>
    obtain ⟨p, hp⟩ := Option.isSome_iff_exists.mp (h ci (List.mem_cons_self _ _))
    rw [price_lines_cons_some rest hp]
    exact List.Forall₂.cons ⟨p, hp, rfl⟩ (ih (fun x hx => h x (List.mem_cons_of_mem _ hx)))

/-- When every identifier resolves, the raw per-line totals recomputed from
the emitted lines sum exactly to the raw subtotal. -/
theorem price_lines_sum {lookup : String → Option Product} {items : List CalcItem}
    (h : all_resolve lookup items) :
    ((price_lines lookup items).1.map (fun l => l.price * (l.qty : ℚ))).sum
      = (price_lines lookup items).2 := by
  induction items with
  | nil => simp [price_lines_nil]
  | cons ci rest ih =>
    obtain ⟨p, hp⟩ := Option.isSome_iff_exists.mp (h ci (List.mem_cons_self _ _))
    rw [price_lines_cons_some rest hp]
    simp only [List.map_cons, List.sum_cons]
    rw [ih (fun x hx => h x (List.mem_cons_of_mem _ hx))]

/-- A catalog with a product whose price needs rounding in a line total. -/
def tinyLookup : String → Option Product := fun s =>
  if s = "tiny" then some { title := "Tiny", slug := "tiny", price := 0.004 } else none

/-- A 0.004 cart line. -/
def tinyItem : CalcItem := { product_slug := "tiny", qty := 1, size := "M", color := "red" }

/-- Two 0.004 lines, domestic, no code. -/
def reqTiny : CalcRequest :=
  { items := [tinyItem, tinyItem], discount_code := none, country := "IN" }

/-- C7 counterexample: on a cart of two 0.004 lines each emitted line total is
0 (the raw 0.004 is rounded for display), so a line total differs from
`unit_price * quantity`, and the reported line totals sum to 0 while the
reported subtotal is 0.01. -/
theorem claim_C7_counterexample :
    (calculate_order tinyLookup reqTiny =
      .ok { items := [{ slug := "tiny", title := "Tiny", price := 0.004, qty := 1,
                        line_total := 0 },
                      { slug := "tiny", title := "Tiny", price := 0.004, qty := 1,
                        line_total := 0 }],
            subtotal := 0.01, discount := 0, shipping := 8, tax := 0, total := 8.01 })
    ∧ (0 : ℚ) ≠ (0.004 : ℚ) * 1
    ∧ (0 : ℚ) + 0 ≠ (0.01 : ℚ)
    ∧ round2 ((0.004 : ℚ) * 1 + (0.004 : ℚ) * 1) = 0.01 := by
  have hlT : tinyLookup "tiny" = some { title := "Tiny", slug := "tiny", price := 0.004 } := by
    rw [tinyLookup, if_pos rfl]
  refine ⟨?_, by norm_num, by norm_num, by norm_num [round2, roundHalfEven]⟩
  rw [calculate_order_eq_ok]
  refine ⟨by decide, ?_⟩
  rw [calc_success_eval tinyLookup reqTiny 0.008 0 true
      [{ slug := "tiny", title := "Tiny", price := 0.004, qty := 1, line_total := 0 },
       { slug := "tiny", title := "Tiny", price := 0.004, qty := 1, line_total := 0 }]
      8 0.0004 8.0084
      (by norm_num [cart_subtotal, price_lines, line_step, reqTiny, tinyItem, hlT])
      (by norm_num [price_lines, line_step, reqTiny, tinyItem, hlT, round2, roundHalfEven])
      rfl (by decide)
      (by norm_num [max_def]) (by norm_num [max_def]) (by norm_num [max_def])]
  norm_num [round2, roundHalfEven]

/-- C7 amended: when every identifier resolves, the breakdown has exactly one
line per cart line in input order, each emitted line total is
`round2(unit_price * quantity)`, the raw line totals sum exactly to the raw
subtotal, and the reported subtotal is the rounding of that raw sum (the
original claim holds only up to the 2-decimal output rounding of line totals
and subtotal, see the counterexample). -/
theorem claim_C7_amended (lookup : String → Option Product)
    (payload : CalcRequest) (out : CalcResponse)
    (h : calculate_order lookup payload = .ok out) :
    List.Forall₂ (line_matches lookup) payload.items out.items
    ∧ (out.items.map (fun l => l.price * (l.qty : ℚ))).sum
        = cart_subtotal lookup payload.items
    ∧ out.subtotal = round2 (cart_subtotal lookup payload.items) := by
  obtain ⟨hres, rfl⟩ := calculate_order_eq_ok.mp h
  exact ⟨price_lines_forall2 hres, price_lines_sum hres, rfl⟩

theorem claim_C7_witness :
    calculate_order demoLookup reqQty2 = .ok (calc_success demoLookup reqQty2)
    ∧ (calc_success demoLookup reqQty2).items.length = reqQty2.items.length
    ∧ (calc_success demoLookup reqQty2).subtotal
        = round2 (cart_subtotal demoLookup reqQty2.items) := by
  have h : calculate_order demoLookup reqQty2 = .ok (calc_success demoLookup reqQty2) := by
    rw [calculate_order_eq_ok]
    exact ⟨by decide, rfl⟩
  have main := claim_C7_amended demoLookup reqQty2 (calc_success demoLookup reqQty2) h
  exact ⟨h, (List.Forall₂.length_eq main.1).symm, main.2.2⟩

/-! ## C1: persisted pricing is the server's, never the client's -/

/-- Replace exactly the client-supplied pricing fields of a submission. -/
def set_pricing (o : Order) (s d sh t tot : ℚ) : Order :=
  { o with subtotal := s, discount := d, shipping := sh, tax := t, total := tot }

/-- C1: on a successful order creation the persisted pricing fields are
exactly the calculator's output on the submitted cart, discount code and
destination country, and changing only the client-supplied pricing fields of
the submission changes nothing about the result. -/
theorem claim_C1_server_pricing (lookup : String → Option Product) (o : Order)
    (rec : OrderRecord) (res : CalcResponse)
    (h : create_order lookup o = .ok (rec, res)) (s d sh t tot : ℚ) :
    calculate_order lookup (order_calc_request o) = .ok res
    ∧ rec.subtotal = res.subtotal ∧ rec.discount = res.discount
    ∧ rec.shipping = res.shipping ∧ rec.tax = res.tax ∧ rec.total = res.total
    ∧ create_order lookup (set_pricing o s d sh t tot) = create_order lookup o := by
  have hvary : create_order lookup (set_pricing o s d sh t tot) = create_order lookup o := rfl
  unfold create_order at h
  cases hcalc : calculate_order lookup (order_calc_request o) with
  | error e =>
    rw [hcalc] at h
    exact absurd h (fun hx => Except.noConfusion hx)
  | ok res2 =>
    rw [hcalc] at h
    injection h with h1
    obtain ⟨hrec, hres⟩ := Prod.mk.injEq .. |>.mp h1
    subst hres
    rw [← hrec]
    exact ⟨rfl, rfl, rfl, rfl, rfl, rfl, hvary⟩

/-- A shipping address in the home country. -/
def demoAddress : Address :=
  { full_name := "Asha Kumar", phone := "999", line1 := "1 Lane", line2 := none,
    city := "Pune", state := "MH", postal_code := "411001", country := "IN" }

/-- A concrete cash-on-delivery order submission whose client-supplied totals
are junk. -/
def demoOrder : Order :=
  { user_email := none, guest := true,
    items := [{ product_slug := "companion-hoodie-red", qty := 1, size := "M", color := "red" }],
    address := demoAddress, payment_method := "COD", discount_code := none,
    subtotal := 0, discount := 0, shipping := 0, tax := 0, total := 999,
    status := "pending" }

/-- The calculator summary for `demoOrder`. -/
def demoRes : CalcResponse := calc_success demoLookup (order_calc_request demoOrder)

/-- The record `create_order` persists for `demoOrder`. -/
def demoRecord : OrderRecord :=
  { user_email := none, guest := true, items := demoRes.items, address := demoAddress,
    payment_method := "COD", discount_code := none,
    subtotal := demoRes.subtotal, discount := demoRes.discount,
    shipping := demoRes.shipping, tax := demoRes.tax, total := demoRes.total,
    status := "confirmed" }

theorem create_order_demoOrder :
    create_order demoLookup demoOrder = .ok (demoRecord, demoRes) := by
  have hcalc : calculate_order demoLookup (order_calc_request demoOrder) = .ok demoRes := by
    rw [calculate_order_eq_ok]
    exact ⟨by decide, rfl⟩
  unfold create_order
  rw [hcalc]
  rfl

theorem claim_C1_witness :
    create_order demoLookup demoOrder = .ok (demoRecord, demoRes)
    ∧ calculate_order demoLookup (order_calc_request demoOrder) = .ok demoRes
    ∧ demoRecord.total = demoRes.total
    ∧ create_order demoLookup (set_pricing demoOrder 1 2 3 4 5)
        = create_order demoLookup demoOrder := by
  have main := claim_C1_server_pricing demoLookup demoOrder demoRecord demoRes
    create_order_demoOrder 1 2 3 4 5
  exact ⟨create_order_demoOrder, main.1, main.2.2.2.2.2.1, main.2.2.2.2.2.2⟩

/-! ## C9: what the order record actually persists -/

/-- The same submission as `demoOrder` except the customer chose size "L"
instead of "M". -/
def orderSizeL : Order :=
  { demoOrder with
    items := [{ product_slug := "companion-hoodie-red", qty := 1, size := "L", color := "red" }] }

/-- The calculator summary both submissions produce. -/
def resLit : CalcResponse :=
  { items := [hoodieLine 1 109.0], subtotal := 109.0, discount := 0,
    shipping := 8.0, tax := 5.45, total := 122.45 }

/-- The document both submissions persist: its `items` are the calculator's
breakdown lines, not the submitted cart items. -/
def recLit : OrderRecord :=
  { user_email := none, guest := true, items := resLit.items, address := demoAddress,
    payment_method := "COD", discount_code := none,
    subtotal := resLit.subtotal, discount := resLit.discount, shipping := resLit.shipping,
    tax := resLit.tax, total := resLit.total, status := "confirmed" }

theorem calc_success_demoOrder : calc_success demoLookup (order_calc_request demoOrder) = resLit := by
  rw [calc_success_eval demoLookup (order_calc_request demoOrder) 109 0 true
      [hoodieLine 1 109.0] 8 5.45 122.45
      (by norm_num [cart_subtotal, price_lines, line_step, demoLookup, hoodieRed,
        order_calc_request, demoOrder])
      (by norm_num [price_lines, line_step, demoLookup, hoodieRed, order_calc_request,
        demoOrder, hoodieLine, round2, roundHalfEven])
      rfl (by decide)
      (by norm_num [max_def]) (by norm_num [max_def]) (by norm_num [max_def])]
  norm_num [resLit, hoodieLine, round2, roundHalfEven]

theorem calc_success_orderSizeL : calc_success demoLookup (order_calc_request orderSizeL) = resLit := by
  rw [calc_success_eval demoLookup (order_calc_request orderSizeL) 109 0 true
      [hoodieLine 1 109.0] 8 5.45 122.45
      (by norm_num [cart_subtotal, price_lines, line_step, demoLookup, hoodieRed,
        order_calc_request, orderSizeL, demoOrder])
      (by norm_num [price_lines, line_step, demoLookup, hoodieRed, order_calc_request,
        orderSizeL, demoOrder, hoodieLine, round2, roundHalfEven])
      rfl (by decide)
      (by norm_num [max_def]) (by norm_num [max_def]) (by norm_num [max_def])]
  norm_num [resLit, hoodieLine, round2, roundHalfEven]

/-- C9: the dict merge `{**payload.model_dump(), **calc, "status": ...}` lets
the calculator's `items` key overwrite the submitted cart items, so the
persisted record keeps only the breakdown lines (slug/title/price/qty/line
total): two submissions that differ only in the chosen size persist the very
same record, i.e. the submitted cart lines are NOT stored unchanged. -/
theorem claim_C9_items_clobbered :
    create_order demoLookup demoOrder = .ok (recLit, resLit)
    ∧ recLit.items = resLit.items
    ∧ demoOrder ≠ orderSizeL
    ∧ create_order demoLookup orderSizeL = .ok (recLit, resLit) := by
  refine ⟨?_, rfl, ?_, ?_⟩
  · have hcalcM : calculate_order demoLookup (order_calc_request demoOrder) = .ok resLit := by
      rw [calculate_order_eq_ok]
      exact ⟨by decide, calc_success_demoOrder.symm⟩
    unfold create_order
    rw [hcalcM]
    rfl
  · intro hx
    have h1 := congrArg (fun o => o.items) hx
    simp [demoOrder, orderSizeL] at h1
  · have hcalcL : calculate_order demoLookup (order_calc_request orderSizeL) = .ok resLit := by
      rw [calculate_order_eq_ok]
      exact ⟨by decide, calc_success_orderSizeL.symm⟩
    unfold create_order
    rw [hcalcL]
    rfl
